import Mathlib

/-!
# Verification of the heim metrics-acquisition pipeline

Shallow embedding of the heim repository's core subsystem:

* `src/heim-common/src/errors.rs` — the unified `Error` type, its `Display`
  implementation and the `From` conversions;
* `src/heim-disk/src/sys/linux/counters.rs` — the `/proc/diskstats` line
  parser `IoCounters::from_str`, the `is_storage_device` probe and the
  `io_counters` / `io_counters_physical` stream pipelines;
* `src/heim-cpu/src/linux/mod.rs` — `clock_ticks` and the `CLOCK_TICKS`
  lazily cached calibration constant.

Conventions of the embedding:

* Rust `u64` values are `Nat`s; where the source performs `u64` arithmetic
  that can overflow (the sector-size multiplication) the result is reduced
  `% 2 ^ 64`, matching release-profile wrapping semantics.
* Each external error type (`std::io::Error`, `std::num::ParseIntError`, …)
  is opaque to this repository; it is modelled by the one observation the
  code makes of it, its `Display` rendering, stored in a `msg` field.
  (`std::string::ParseError` is in reality uninhabited; it is modelled by
  the same convention since the code only forwards it.)
* Effects on the world (filesystem probes, `sysconf`) are parameters of the
  model (`FsModel`, `CpuEnv`); a Rust panic is a distinguished outcome
  (`ProbeOutcome.panicked`, `RunOutcome.panicked`, `Option.none`), never a
  returned `Error`.
-/

namespace Heim

/-! ## Error model — src/heim-common/src/errors.rs

Each wrapped external failure type is modelled by its `Display` output. -/

/-- Model of `std::ffi::NulError` (its `Display` output). -/
structure NulError where
  msg : String
  deriving DecidableEq, Repr

/-- Model of `std::ffi::IntoStringError` (its `Display` output). -/
structure IntoStringError where
  msg : String
  deriving DecidableEq, Repr

/-- Model of `std::io::Error` (its `Display` output). -/
structure IoError where
  msg : String
  deriving DecidableEq, Repr

/-- Model of `std::num::ParseIntError` (its `Display` output). -/
structure ParseIntError where
  msg : String
  deriving DecidableEq, Repr

/-- Model of `std::num::ParseFloatError` (its `Display` output). -/
structure ParseFloatError where
  msg : String
  deriving DecidableEq, Repr

/-- Model of `std::string::ParseError` (uninhabited in Rust; modelled by its
would-be `Display` output, which the code forwards generically). -/
structure ParseStringError where
  msg : String
  deriving DecidableEq, Repr

/-- Model of `std::string::FromUtf8Error` (its `Display` output). -/
structure FromUtf8Error where
  msg : String
  deriving DecidableEq, Repr

/-- Model of a `Box<dyn error::Error + Send>` (its `Display` output). -/
structure BoxedError where
  msg : String
  deriving DecidableEq, Repr

/-- Model of `std::net::AddrParseError` (its `Display` output). -/
structure AddrParseError where
  msg : String
  deriving DecidableEq, Repr

/-- Model of `nix::Error` (its `Display` output). -/
structure NixError where
  msg : String
  deriving DecidableEq, Repr

/-- `enum ErrorKind` of src/heim-common/src/errors.rs, payloads modelled
as above. `Parse` is the generic parse error and carries no cause. -/
inductive ErrorKind where
  | FromNul (e : NulError)
  | FromFfiString (e : IntoStringError)
  | Io (e : IoError)
  | Parse
  | ParseInt (e : ParseIntError)
  | ParseFloat (e : ParseFloatError)
  | ParseString (e : ParseStringError)
  | FromUtf8 (e : FromUtf8Error)
  | Other (e : BoxedError)
  deriving DecidableEq, Repr

/-- `struct Error { kind: ErrorKind }` of src/heim-common/src/errors.rs. -/
structure Error where
  kind : ErrorKind
  deriving DecidableEq, Repr

/-- `impl fmt::Display for Error`: every cause-carrying variant delegates to
the wrapped cause's own `Display`; the generic `Parse` variant writes the
fixed string `"Unable to parse"`. -/
def Error.display (err : Error) : String :=
  match err.kind with
  | .FromNul e => e.msg
  | .FromFfiString e => e.msg
  | .Io e => e.msg
  | .Parse => "Unable to parse"
  | .ParseInt e => e.msg
  | .ParseFloat e => e.msg
  | .ParseString e => e.msg
  | .FromUtf8 e => e.msg
  | .Other e => e.msg

/-- `impl From<ffi::NulError> for Error`. -/
def Error.from_nul_error (e : NulError) : Error := ⟨.FromNul e⟩

/-- `impl From<ffi::IntoStringError> for Error`. -/
def Error.from_into_string_error (e : IntoStringError) : Error := ⟨.FromFfiString e⟩

/-- `impl From<io::Error> for Error`. -/
def Error.from_io_error (e : IoError) : Error := ⟨.Io e⟩

/-- `impl From<num::ParseIntError> for Error`. -/
def Error.from_parse_int_error (e : ParseIntError) : Error := ⟨.ParseInt e⟩

/-- `impl From<num::ParseFloatError> for Error`. -/
def Error.from_parse_float_error (e : ParseFloatError) : Error := ⟨.ParseFloat e⟩

/-- `impl From<string::ParseError> for Error`. -/
def Error.from_parse_string_error (e : ParseStringError) : Error := ⟨.ParseString e⟩

/-- `impl From<string::FromUtf8Error> for Error`. -/
def Error.from_utf8_error (e : FromUtf8Error) : Error := ⟨.FromUtf8 e⟩

/-- `impl<T> From<Box<T>> for Error`. -/
def Error.from_boxed_error (e : BoxedError) : Error := ⟨.Other e⟩

/-- `impl From<net::AddrParseError> for Error`: the source discards the
cause (`_e`) and produces the payload-free generic `Parse` kind. -/
def Error.from_addr_parse_error (_e : AddrParseError) : Error := ⟨.Parse⟩

/-- `impl From<nix::Error> for Error`: the body is `unimplemented!()`, which
panics unconditionally; no `Error` value is ever produced (`none`). -/
def Error.from_nix_error (_e : NixError) : Option Error := none

/-! ## Disk I/O counters — src/heim-disk/src/sys/linux/counters.rs -/

/-- `const DISK_SECTOR_SIZE: u64 = 512;` — fixed bytes-per-sector constant. -/
def DISK_SECTOR_SIZE : Nat := 512

/-- `struct IoCounters` of src/heim-disk/src/sys/linux/counters.rs.
`Information` is modelled as a byte count, `Time` as a second count
(the parser only ever stores whole u64 seconds there). -/
structure IoCounters where
  name : String
  read_count : Nat
  write_count : Nat
  read_bytes : Nat
  write_bytes : Nat
  busy_time : Nat
  read_merged_count : Nat
  write_merged_count : Nat
  deriving DecidableEq, Repr

instance {ε α : Type} [DecidableEq ε] [DecidableEq α] : DecidableEq (Except ε α) := fun a b =>
  match a, b with
  | .error x, .error y =>
    if h : x = y then .isTrue (by rw [h]) else .isFalse (by simp [h])
  | .error _, .ok _ => .isFalse (by simp)
  | .ok _, .error _ => .isFalse (by simp)
  | .ok x, .ok y =>
    if h : x = y then .isTrue (by rw [h]) else .isFalse (by simp [h])

/-- Accumulator-based worker for `splitWhitespace`. -/
def splitWsAux : List Char → List Char → List String
  | [], [] => []
  | [], acc => [String.mk acc.reverse]
  | c :: rest, acc =>
    if c.isWhitespace then
      match acc with
      | [] => splitWsAux rest []
      | _ => String.mk acc.reverse :: splitWsAux rest []
    else
      splitWsAux rest (c :: acc)

/-- Rust `str::split_whitespace`: maximal runs of non-whitespace characters,
empty fields dropped. (Whitespace here is ASCII whitespace; the kernel table
and every input considered in this development is ASCII.) -/
def splitWhitespace (s : String) : List String :=
  splitWsAux s.data []

/-- Rust `u64::from_str` / `str::parse::<u64>()`: an optional leading `+`,
then one or more ASCII digits, value below `2 ^ 64`; anything else
(empty input, stray characters, a `-` sign, overflow) is rejected. -/
def parseU64 (s : String) : Option Nat :=
  let cs := match s.data with
    | '+' :: rest => rest
    | cs => cs
  match cs with
  | [] => none
  | _ =>
    if cs.all Char.isDigit then
      let n := cs.foldl (fun a c => a * 10 + (c.toNat - 48)) 0
      if n < 2 ^ 64 then some n else none
    else
      none

/-- Modelled from the spec: `heim_common::utils::parse::ParseIterator::
try_from_next` is not under src/. Per §4.3/§8 of the spec, a missing field
is a structural parse failure (the generic `Parse` kind) and the value is
otherwise converted by the target type's `FromStr`. For `String` the
conversion is infallible. Returns the converted head and the rest of the
iterator. -/
def try_from_next_string (parts : List String) : Except Error (String × List String) :=
  match parts with
  | [] => .error (Error.mk .Parse)
  | p :: rest => .ok (p, rest)

/-- Modelled from the spec: `try_from_next` at type `u64` (see
`try_from_next_string`). A present field that is not a valid `u64` fails
with the typed `ParseInt` kind, carrying the underlying cause. -/
def try_from_next_u64 (parts : List String) : Except Error (Nat × List String) :=
  match parts with
  | [] => .error (Error.mk .Parse)
  | p :: rest =>
    match parseU64 p with
    | some n => .ok (n, rest)
    | none => .error (Error.mk (.ParseInt ⟨p⟩))

/-- `IoCounters::from_str`, as a function of the whitespace-split field
list: `skip(2)`, then name, read_count, read_merged_count, read_bytes
(sectors × `DISK_SECTOR_SIZE`), `skip(1)`, write_count, write_merged_count,
write_bytes (sectors × `DISK_SECTOR_SIZE`), `skip(2)`, busy_time (whole
seconds). The u64 sector-size multiplications wrap `% 2 ^ 64`. -/
def fromFields (l : List String) : Except Error IoCounters :=
  match try_from_next_string (l.drop 2) with
  | .error e => .error e
  | .ok (name, rest1) =>
  match try_from_next_u64 rest1 with
  | .error e => .error e
  | .ok (read_count, rest2) =>
  match try_from_next_u64 rest2 with
  | .error e => .error e
  | .ok (read_merged_count, rest3) =>
  match try_from_next_u64 rest3 with
  | .error e => .error e
  | .ok (rb, rest4) =>
  match try_from_next_u64 (rest4.drop 1) with
  | .error e => .error e
  | .ok (write_count, rest5) =>
  match try_from_next_u64 rest5 with
  | .error e => .error e
  | .ok (write_merged_count, rest6) =>
  match try_from_next_u64 rest6 with
  | .error e => .error e
  | .ok (wb, rest7) =>
  match try_from_next_u64 (rest7.drop 2) with
  | .error e => .error e
  | .ok (busy_time, _) =>
    .ok { name := name,
          read_count := read_count,
          write_count := write_count,
          read_bytes := rb * DISK_SECTOR_SIZE % 2 ^ 64,
          write_bytes := wb * DISK_SECTOR_SIZE % 2 ^ 64,
          busy_time := busy_time,
          read_merged_count := read_merged_count,
          write_merged_count := write_merged_count }

/-- `impl FromStr for IoCounters` — `from_str(s)` splits on whitespace and
consumes the field list as in `fromFields`. -/
def IoCounters.from_str (s : String) : Except Error IoCounters :=
  fromFields (splitWhitespace s)

/-- The parse chain of `fromFields` expressed directly on the eight field
positions it can inspect (0-based positions 2, 3, 4, 5, 7, 8, 9, 12 of the
split line), in the order the source consumes them. -/
def fromView (f2 f3 f4 f5 f7 f8 f9 f12 : Option String) : Except Error IoCounters :=
  match f2 with
  | none => .error (Error.mk .Parse)
  | some name =>
  match f3 with
  | none => .error (Error.mk .Parse)
  | some t3 =>
  match parseU64 t3 with
  | none => .error (Error.mk (.ParseInt ⟨t3⟩))
  | some read_count =>
  match f4 with
  | none => .error (Error.mk .Parse)
  | some t4 =>
  match parseU64 t4 with
  | none => .error (Error.mk (.ParseInt ⟨t4⟩))
  | some read_merged_count =>
  match f5 with
  | none => .error (Error.mk .Parse)
  | some t5 =>
  match parseU64 t5 with
  | none => .error (Error.mk (.ParseInt ⟨t5⟩))
  | some rb =>
  match f7 with
  | none => .error (Error.mk .Parse)
  | some t7 =>
  match parseU64 t7 with
  | none => .error (Error.mk (.ParseInt ⟨t7⟩))
  | some write_count =>
  match f8 with
  | none => .error (Error.mk .Parse)
  | some t8 =>
  match parseU64 t8 with
  | none => .error (Error.mk (.ParseInt ⟨t8⟩))
  | some write_merged_count =>
  match f9 with
  | none => .error (Error.mk .Parse)
  | some t9 =>
  match parseU64 t9 with
  | none => .error (Error.mk (.ParseInt ⟨t9⟩))
  | some wb =>
  match f12 with
  | none => .error (Error.mk .Parse)
  | some t12 =>
  match parseU64 t12 with
  | none => .error (Error.mk (.ParseInt ⟨t12⟩))
  | some busy_time =>
    .ok { name := name,
          read_count := read_count,
          write_count := write_count,
          read_bytes := rb * DISK_SECTOR_SIZE % 2 ^ 64,
          write_bytes := wb * DISK_SECTOR_SIZE % 2 ^ 64,
          busy_time := busy_time,
          read_merged_count := read_merged_count,
          write_merged_count := write_merged_count }

/-- The success condition of `IoCounters::from_str` on a split line: at
least 13 fields, and the seven consumed numeric columns (0-based positions
3, 4, 5, 7, 8, 9, 12) parse as `u64`. The name column (position 2) is a
`String` and converts unconditionally. -/
def requiredOk (l : List String) : Prop :=
  13 ≤ l.length ∧
  (parseU64 (l.getD 3 "")).isSome = true ∧
  (parseU64 (l.getD 4 "")).isSome = true ∧
  (parseU64 (l.getD 5 "")).isSome = true ∧
  (parseU64 (l.getD 7 "")).isSome = true ∧
  (parseU64 (l.getD 8 "")).isSome = true ∧
  (parseU64 (l.getD 9 "")).isSome = true ∧
  (parseU64 (l.getD 12 "")).isSome = true

instance requiredOk.dec (l : List String) : Decidable (requiredOk l) := by
  unfold requiredOk
  infer_instance

/-- The 0-based positions of the split line that `from_str` consumes:
name, read count, read merged, read sectors, write count, write merged,
write sectors, busy time (1-based fields 3, 4, 5, 6, 8, 9, 10, 13). -/
def consumedIdx : List Nat := [2, 3, 4, 5, 7, 8, 9, 12]

/-! ## Physical-device probe and the stream pipelines -/

/-- Outcome of one `is_storage_device` probe: a boolean classification, or
a Rust panic (which unwinds; it is never an `Error` value). -/
inductive ProbeOutcome where
  | ok (b : Bool)
  | panicked (msg : String)
  deriving DecidableEq, Repr

/-- The OS context the probe runs against: `access` is
`libc::access(path, F_OK) == 0` (existence of the path), `poolUp` is
whether `tokio_threadpool::blocking` succeeds (the worker pool is
running). -/
structure FsModel where
  access : String → Bool
  poolUp : Bool

/-- `self.name.replace("/", "!")` — substitute every `/` of the device
name by `!`. -/
def replaceSlash (name : String) : String :=
  String.mk (name.data.map (fun c => if c = '/' then '!' else c))

/-- `format!("/sys/block/{}", name.replace("/", "!"))`. -/
def probePath (name : String) : String :=
  "/sys/block/" ++ replaceSlash name

/-- `IoCounters::is_storage_device`: builds the probe path as a C string
(`CString::new(..).expect("Malformed device path")` — panics if the name
contains a NUL byte; the source marks this `FIXME: propagate error`), then
runs `libc::access(path, F_OK)` on the blocking pool; a pool failure is
`.map_err(|_| panic!("The tokio threadpool shut down"))`. The record is
classified as a physical device exactly when `access` reports the path
exists. -/
def is_storage_device (fs : FsModel) (name : String) : ProbeOutcome :=
  if '\x00' ∈ (probePath name).data then .panicked "Malformed device path"
  else if fs.poolUp then .ok (fs.access (probePath name))
  else .panicked "The tokio threadpool shut down"

/-- Outcome of consuming a whole enumeration: the yielded records, or a
terminal `Error`, or a Rust panic (which is not an `Error`). -/
inductive RunOutcome where
  | ok (records : List IoCounters)
  | err (e : Error)
  | panicked (msg : String)
  deriving DecidableEq, Repr

/-- Modelled from the spec: `heim_common::utils::fs::read_lines_into` is
not under src/. Per §4.4 the stream reads the source line by line, parses
each line via `FromStr` (here `IoCounters::from_str`), and any parse
failure propagates as the enumeration's terminal failure. `io_counters`
is the fully consumed enumeration over the lines of the source. -/
def io_counters : List String → Except Error (List IoCounters)
  | [] => .ok []
  | line :: rest =>
    match IoCounters.from_str line with
    | .error e => .error e
    | .ok r =>
      match io_counters rest with
      | .error e => .error e
      | .ok rs => .ok (r :: rs)

/-- The filter stage of `io_counters_physical` (the `and_then` probe plus
the `filter_map`), applied to an already parsed record sequence: probe each
record in order, keep it exactly when the probe answers `true`; a probe
panic unwinds past the combinators. -/
def filterPhysical (fs : FsModel) : List IoCounters → RunOutcome
  | [] => .ok []
  | r :: rest =>
    match is_storage_device fs r.name with
    | .panicked m => .panicked m
    | .ok b =>
      match filterPhysical fs rest with
      | .ok rs => .ok (if b then r :: rs else rs)
      | other => other

/-- `io_counters_physical()`: `io_counters()` composed with the per-record
`is_storage_device` probe (`and_then`) and the `filter_map` dropping
non-storage records, fully consumed over the lines of the source. -/
def io_counters_physical (fs : FsModel) : List String → RunOutcome
  | [] => .ok []
  | line :: rest =>
    match IoCounters.from_str line with
    | .error e => .err e
    | .ok r =>
      match is_storage_device fs r.name with
      | .panicked m => .panicked m
      | .ok b =>
        match io_counters_physical fs rest with
        | .ok rs => .ok (if b then r :: rs else rs)
        | other => other

/-! ## CPU clock-tick calibration — src/heim-cpu/src/sys/linux/mod.rs -/

/-- The OS context of `clock_ticks`: the value `libc::sysconf(_SC_CLK_TCK)`
returns (a signed integer), and the thread's current OS error as captured
by `Error::last_os_error()`. -/
structure CpuEnv where
  sysconfResult : Int
  osError : IoError
  deriving DecidableEq, Repr

/-- `fn clock_ticks() -> Result<f64>`: `Ok(result as f64)` when the
sysconf result is positive, otherwise `Err(Error::last_os_error())`.
The `f64` carries the integer tick rate exactly at every realistic
magnitude, so the model keeps the integer. -/
def clock_ticks (env : CpuEnv) : Except Error Int :=
  if env.sysconfResult > 0 then .ok env.sysconfResult
  else .error (Error.from_io_error env.osError)

/-- State of the process-wide lazily cached calibration constant. -/
inductive CacheState where
  | uninit
  | cached (v : Int)
  deriving DecidableEq, Repr

/-- Outcome of one access to `CLOCK_TICKS`: the constant, or the fatal
failure of the `.expect("Unable to determine CPU number of ticks per
second")` on the error returned by `clock_ticks`. -/
inductive AccessOutcome where
  | value (v : Int)
  | fatal (e : Error)
  deriving DecidableEq, Repr

/-- Modelled from the spec: the `lazy_static!` macro expansion backing
`CLOCK_TICKS` is not under src/. Per §4.5 and example scenario 2 of the
spec, the first access runs the privileged query (`clock_ticks`); a
positive result is cached as the process-wide constant and every later
access returns the cached value without recomputation; on failure the
access fails fatally, no cached value is stored, and a later access
re-attempts the query. One access maps the current state to the outcome
and the next state. -/
def CLOCK_TICKS_access (env : CpuEnv) : CacheState → AccessOutcome × CacheState
  | .uninit =>
    match clock_ticks env with
    | .ok v => (.value v, .cached v)
    | .error e => (.fatal e, .uninit)
  | .cached v => (.value v, .cached v)

/-! ## Concrete fixtures used by witnesses -/

/-- A filesystem in which exactly `/sys/block/sda` exists and the worker
pool is running. -/
def fsW : FsModel :=
  FsModel.mk (fun p => p == "/sys/block/sda") true

/-- Two well-formed kernel-table lines: a disk (`sda`) and a loop device. -/
def linesW : List String :=
  ["8 0 sda 100 5 51200 10 20 2 10240 20 30 7",
   "7 0 loop0 1 0 8 0 1 0 8 0 0 2"]

/-- The record parsed from the first line of `linesW`. -/
def sdaRec : IoCounters :=
  IoCounters.mk "sda" 100 20 26214400 5242880 7 5 2

/-- The record parsed from the second line of `linesW`. -/
def loopRec : IoCounters :=
  IoCounters.mk "loop0" 1 1 4096 4096 2 0 0

/-- A sysconf context whose privileged query fails (`-1`), with the OS
error the thread would report. -/
def envFail : CpuEnv := CpuEnv.mk (-1) ⟨"Operation not permitted (os error 1)"⟩

/-- A sysconf context whose privileged query returns 100 ticks/second. -/
def envOk : CpuEnv := CpuEnv.mk 100 ⟨"Operation not permitted (os error 1)"⟩

theorem drop_shape {α : Type} : ∀ (n : Nat) (l : List α),
    l.drop n = (match l.get? n with
      | none => []
      | some a => a :: l.drop (n + 1)) := by
  intro n
  induction n with
  | zero =>
    intro l
    cases l <;> simp
  | succ k ih =>
    intro l
    cases l with
    | nil => simp
    | cons a t => simpa using ih t

theorem try_string_drop (l : List String) (n m : Nat) (hm : m = n + 1) :
    try_from_next_string (l.drop n) =
      (match l.get? n with
       | none => .error (Error.mk .Parse)
       | some p => .ok (p, l.drop m)) := by
  subst hm
  rw [drop_shape n l]
  cases l.get? n <;> rfl

theorem try_u64_drop (l : List String) (n m : Nat) (hm : m = n + 1) :
    try_from_next_u64 (l.drop n) =
      (match l.get? n with
       | none => .error (Error.mk .Parse)
       | some p =>
         match parseU64 p with
         | some v => .ok (v, l.drop m)
         | none => .error (Error.mk (.ParseInt ⟨p⟩))) := by
  subst hm
  rw [drop_shape n l]
  cases l.get? n <;> rfl

/-- `fromFields` inspects exactly the 0-based positions 2, 3, 4, 5, 7, 8,
9 and 12 of the field list; everything else (the two leading columns, the
two skipped reserved columns and any trailing columns) is dropped unread. -/
theorem fromFields_eq_view (l : List String) :
    fromFields l =
      fromView (l.get? 2) (l.get? 3) (l.get? 4) (l.get? 5)
        (l.get? 7) (l.get? 8) (l.get? 9) (l.get? 12) := by
  unfold fromFields fromView
  rw [try_string_drop l 2 3 rfl]
  cases l.get? 2 with
  | none => rfl
  | some name =>
  dsimp only
  rw [try_u64_drop l 3 4 rfl]
  cases l.get? 3 with
  | none => rfl
  | some t3 =>
  dsimp only
  cases parseU64 t3 with
  | none => rfl
  | some read_count =>
  dsimp only
  rw [try_u64_drop l 4 5 rfl]
  cases l.get? 4 with
  | none => rfl
  | some t4 =>
  dsimp only
  cases parseU64 t4 with
  | none => rfl
  | some read_merged_count =>
  dsimp only
  rw [try_u64_drop l 5 6 rfl]
  cases l.get? 5 with
  | none => rfl
  | some t5 =>
  dsimp only
  cases parseU64 t5 with
  | none => rfl
  | some rb =>
  dsimp only
  rw [show (l.drop 6).drop 1 = l.drop 7 by simp [List.drop_drop]]
  rw [try_u64_drop l 7 8 rfl]
  cases l.get? 7 with
  | none => rfl
  | some t7 =>
  dsimp only
  cases parseU64 t7 with
  | none => rfl
  | some write_count =>
  dsimp only
  rw [try_u64_drop l 8 9 rfl]
  cases l.get? 8 with
  | none => rfl
  | some t8 =>
  dsimp only
  cases parseU64 t8 with
  | none => rfl
  | some write_merged_count =>
  dsimp only
  rw [try_u64_drop l 9 10 rfl]
  cases l.get? 9 with
  | none => rfl
  | some t9 =>
  dsimp only
  cases parseU64 t9 with
  | none => rfl
  | some wb =>
  dsimp only
  rw [show (l.drop 10).drop 2 = l.drop 12 by simp [List.drop_drop]]
  rw [try_u64_drop l 12 13 rfl]
  cases l.get? 12 with
  | none => rfl
  | some t12 =>
  dsimp only
  cases parseU64 t12 <;> rfl

theorem getD_of_get? (l : List String) (i : Nat) (t : String) (h : l.get? i = some t) :
    l.getD i "" = t := by
  simp [List.getD_eq_getElem?_getD, ← List.get?_eq_getElem?, h]

theorem get?_of_len (l : List String) (i : Nat) (h : i < l.length) :
    l.get? i = some (l.getD i "") := by
  rw [List.getD_eq_getElem?_getD, List.getElem?_eq_getElem h, List.get?_eq_getElem?,
    List.getElem?_eq_getElem h]
  simp

/-- Complete case analysis of `fromFields`: either every required column is
present and numeric and the result is the fully determined record, or the
result is an error whose kind is the structural `Parse` or a typed
`ParseInt`, and the success condition `requiredOk` fails. -/
theorem fromFields_master (l : List String) :
    (∃ rc rmc rawR wc wmc rawW bt,
      parseU64 (l.getD 3 "") = some rc ∧
      parseU64 (l.getD 4 "") = some rmc ∧
      parseU64 (l.getD 5 "") = some rawR ∧
      parseU64 (l.getD 7 "") = some wc ∧
      parseU64 (l.getD 8 "") = some wmc ∧
      parseU64 (l.getD 9 "") = some rawW ∧
      parseU64 (l.getD 12 "") = some bt ∧
      13 ≤ l.length ∧
      fromFields l = .ok (IoCounters.mk (l.getD 2 "") rc wc
        (rawR * DISK_SECTOR_SIZE % 2 ^ 64) (rawW * DISK_SECTOR_SIZE % 2 ^ 64) bt rmc wmc)) ∨
    (∃ e, fromFields l = .error e ∧
      (e.kind = .Parse ∨ ∃ t, e.kind = .ParseInt t) ∧ ¬ requiredOk l) := by
  have hview := fromFields_eq_view l
  cases h2 : l.get? 2 with
  | none =>
    have hlen := List.get?_eq_none.mp h2
    refine .inr ⟨Error.mk .Parse, ?_, .inl rfl, fun hreq => by have := hreq.1; omega⟩
    rw [hview, h2]
    rfl
  | some t2 =>
  cases h3 : l.get? 3 with
  | none =>
    have hlen := List.get?_eq_none.mp h3
    refine .inr ⟨Error.mk .Parse, ?_, .inl rfl, fun hreq => by have := hreq.1; omega⟩
    rw [hview, h2, h3]
    rfl
  | some t3 =>
  cases hp3 : parseU64 t3 with
  | none =>
    refine .inr ⟨Error.mk (.ParseInt ⟨t3⟩), ?_, .inr ⟨⟨t3⟩, rfl⟩, fun hreq => ?_⟩
    · rw [hview, h2, h3]
      simp [fromView, hp3]
    · have hq := hreq.2.1
      rw [getD_of_get? l 3 t3 h3, hp3] at hq
      simp at hq
  | some rc =>
  cases h4 : l.get? 4 with
  | none =>
    have hlen := List.get?_eq_none.mp h4
    refine .inr ⟨Error.mk .Parse, ?_, .inl rfl, fun hreq => by have := hreq.1; omega⟩
    rw [hview, h2, h3, h4]
    simp [fromView, hp3]
  | some t4 =>
  cases hp4 : parseU64 t4 with
  | none =>
    refine .inr ⟨Error.mk (.ParseInt ⟨t4⟩), ?_, .inr ⟨⟨t4⟩, rfl⟩, fun hreq => ?_⟩
    · rw [hview, h2, h3, h4]
      simp [fromView, hp3, hp4]
    · have hq := hreq.2.2.1
      rw [getD_of_get? l 4 t4 h4, hp4] at hq
      simp at hq
  | some rmc =>
  cases h5 : l.get? 5 with
  | none =>
    have hlen := List.get?_eq_none.mp h5
    refine .inr ⟨Error.mk .Parse, ?_, .inl rfl, fun hreq => by have := hreq.1; omega⟩
    rw [hview, h2, h3, h4, h5]
    simp [fromView, hp3, hp4]
  | some t5 =>
  cases hp5 : parseU64 t5 with
  | none =>
    refine .inr ⟨Error.mk (.ParseInt ⟨t5⟩), ?_, .inr ⟨⟨t5⟩, rfl⟩, fun hreq => ?_⟩
    · rw [hview, h2, h3, h4, h5]
      simp [fromView, hp3, hp4, hp5]
    · have hq := hreq.2.2.2.1
      rw [getD_of_get? l 5 t5 h5, hp5] at hq
      simp at hq
  | some rawR =>
  cases h7 : l.get? 7 with
  | none =>
    have hlen := List.get?_eq_none.mp h7
    refine .inr ⟨Error.mk .Parse, ?_, .inl rfl, fun hreq => by have := hreq.1; omega⟩
    rw [hview, h2, h3, h4, h5, h7]
    simp [fromView, hp3, hp4, hp5]
  | some t7 =>
  cases hp7 : parseU64 t7 with
  | none =>
    refine .inr ⟨Error.mk (.ParseInt ⟨t7⟩), ?_, .inr ⟨⟨t7⟩, rfl⟩, fun hreq => ?_⟩
    · rw [hview, h2, h3, h4, h5, h7]
      simp [fromView, hp3, hp4, hp5, hp7]
    · have hq := hreq.2.2.2.2.1
      rw [getD_of_get? l 7 t7 h7, hp7] at hq
      simp at hq
  | some wc =>
  cases h8 : l.get? 8 with
  | none =>
    have hlen := List.get?_eq_none.mp h8
    refine .inr ⟨Error.mk .Parse, ?_, .inl rfl, fun hreq => by have := hreq.1; omega⟩
    rw [hview, h2, h3, h4, h5, h7, h8]
    simp [fromView, hp3, hp4, hp5, hp7]
  | some t8 =>
  cases hp8 : parseU64 t8 with
  | none =>
    refine .inr ⟨Error.mk (.ParseInt ⟨t8⟩), ?_, .inr ⟨⟨t8⟩, rfl⟩, fun hreq => ?_⟩
    · rw [hview, h2, h3, h4, h5, h7, h8]
      simp [fromView, hp3, hp4, hp5, hp7, hp8]
    · have hq := hreq.2.2.2.2.2.1
      rw [getD_of_get? l 8 t8 h8, hp8] at hq
      simp at hq
  | some wmc =>
  cases h9 : l.get? 9 with
  | none =>
    have hlen := List.get?_eq_none.mp h9
    refine .inr ⟨Error.mk .Parse, ?_, .inl rfl, fun hreq => by have := hreq.1; omega⟩
    rw [hview, h2, h3, h4, h5, h7, h8, h9]
    simp [fromView, hp3, hp4, hp5, hp7, hp8]
  | some t9 =>
  cases hp9 : parseU64 t9 with
  | none =>
    refine .inr ⟨Error.mk (.ParseInt ⟨t9⟩), ?_, .inr ⟨⟨t9⟩, rfl⟩, fun hreq => ?_⟩
    · rw [hview, h2, h3, h4, h5, h7, h8, h9]
      simp [fromView, hp3, hp4, hp5, hp7, hp8, hp9]
    · have hq := hreq.2.2.2.2.2.2.1
      rw [getD_of_get? l 9 t9 h9, hp9] at hq
      simp at hq
  | some rawW =>
  cases h12 : l.get? 12 with
  | none =>
    have hlen := List.get?_eq_none.mp h12
    refine .inr ⟨Error.mk .Parse, ?_, .inl rfl, fun hreq => by have := hreq.1; omega⟩
    rw [hview, h2, h3, h4, h5, h7, h8, h9, h12]
    simp [fromView, hp3, hp4, hp5, hp7, hp8, hp9]
  | some t12 =>
  cases hp12 : parseU64 t12 with
  | none =>
    refine .inr ⟨Error.mk (.ParseInt ⟨t12⟩), ?_, .inr ⟨⟨t12⟩, rfl⟩, fun hreq => ?_⟩
    · rw [hview, h2, h3, h4, h5, h7, h8, h9, h12]
      simp [fromView, hp3, hp4, hp5, hp7, hp8, hp9, hp12]
    · have hq := hreq.2.2.2.2.2.2.2
      rw [getD_of_get? l 12 t12 h12, hp12] at hq
      simp at hq
  | some bt =>
    obtain ⟨hl12, -⟩ := List.get?_eq_some.mp h12
    refine .inl ⟨rc, rmc, rawR, wc, wmc, rawW, bt, ?_, ?_, ?_, ?_, ?_, ?_, ?_, by omega, ?_⟩
    · rw [getD_of_get? l 3 t3 h3]; exact hp3
    · rw [getD_of_get? l 4 t4 h4]; exact hp4
    · rw [getD_of_get? l 5 t5 h5]; exact hp5
    · rw [getD_of_get? l 7 t7 h7]; exact hp7
    · rw [getD_of_get? l 8 t8 h8]; exact hp8
    · rw [getD_of_get? l 9 t9 h9]; exact hp9
    · rw [getD_of_get? l 12 t12 h12]; exact hp12
    · rw [hview, h2, h3, h4, h5, h7, h8, h9, h12, getD_of_get? l 2 t2 h2]
      simp [fromView, hp3, hp4, hp5, hp7, hp8, hp9, hp12]

/-! ## Pipeline lemmas -/

/-- When every line parses, the physical pipeline is exactly the filter
stage applied to the parsed record list. -/
theorem physical_eq_filter (fs : FsModel) :
    ∀ (lines : List String) (all : List IoCounters),
      io_counters lines = .ok all →
      io_counters_physical fs lines = filterPhysical fs all := by
  intro lines
  induction lines with
  | nil =>
    intro all h
    simp only [io_counters] at h
    cases h
    rfl
  | cons line rest ih =>
    intro all h
    simp only [io_counters] at h
    cases hl : IoCounters.from_str line with
    | error e =>
      rw [hl] at h
      simp at h
    | ok r =>
      rw [hl] at h
      cases hr : io_counters rest with
      | error e =>
        rw [hr] at h
        simp at h
      | ok rs =>
        rw [hr] at h
        simp only [Except.ok.injEq] at h
        subst h
        simp only [io_counters_physical, filterPhysical, hl]
        cases is_storage_device fs r.name with
        | panicked m => rfl
        | ok b =>
          rw [ih rs hr]

/-- The filter stage only removes elements: its successful output is a
sublist (subset in the original relative order) of its input. -/
theorem filterPhysical_sublist (fs : FsModel) :
    ∀ (all phys : List IoCounters),
      filterPhysical fs all = .ok phys → phys.Sublist all := by
  intro all
  induction all with
  | nil =>
    intro phys h
    simp only [filterPhysical] at h
    cases h
    exact List.Sublist.refl []
  | cons r rest ih =>
    intro phys h
    simp only [filterPhysical] at h
    cases hp : is_storage_device fs r.name with
    | panicked m =>
      rw [hp] at h
      simp at h
    | ok b =>
      rw [hp] at h
      cases hrec : filterPhysical fs rest with
      | ok rs =>
        rw [hrec] at h
        simp only [Except.ok.injEq] at h
        cases b with
        | true =>
          simp only [RunOutcome.ok.injEq, if_true] at h
          subst h
          exact (ih rs hrec).cons₂ r
        | false =>
          simp only [RunOutcome.ok.injEq, if_false] at h
          subst h
          exact (ih rs hrec).cons r
      | err e =>
        rw [hrec] at h
        simp at h
      | panicked m =>
        rw [hrec] at h
        simp at h

/-- The filter stage is idempotent: re-filtering a successful output
returns it unchanged. -/
theorem filterPhysical_idem (fs : FsModel) :
    ∀ (all phys : List IoCounters),
      filterPhysical fs all = .ok phys → filterPhysical fs phys = .ok phys := by
  intro all
  induction all with
  | nil =>
    intro phys h
    simp only [filterPhysical] at h
    cases h
    rfl
  | cons r rest ih =>
    intro phys h
    simp only [filterPhysical] at h
    cases hp : is_storage_device fs r.name with
    | panicked m =>
      rw [hp] at h
      simp at h
    | ok b =>
      rw [hp] at h
      cases hrec : filterPhysical fs rest with
      | ok rs =>
        rw [hrec] at h
        cases b with
        | true =>
          simp only [RunOutcome.ok.injEq, if_true] at h
          subst h
          simp only [filterPhysical, hp, ih rs hrec, if_true]
        | false =>
          simp only [RunOutcome.ok.injEq, if_false] at h
          subst h
          exact ih rs hrec
      | err e =>
        rw [hrec] at h
        simp at h
      | panicked m =>
        rw [hrec] at h
        simp at h

/-! ## Claims -/

/-- C1 (counterexample): the spec's example line
`"8 0 sda 100 5 51200 10 20 2 10240 20"` has only 11 whitespace-separated
fields, while `IoCounters::from_str` consumes through the 13th; parsing it
does NOT succeed — it fails with the structural `Parse` error when the
busy-time field (the 13th) is missing. -/
theorem c1_example_line_fails_to_parse :
    IoCounters.from_str "8 0 sda 100 5 51200 10 20 2 10240 20" =
      .error (Error.mk .Parse) := by
  decide

/-- C1 (amended): the spec's 11-field example line fails with the
structural parse error; the same line extended to the required 13 fields
(`... 30 7`) parses to exactly the claimed record — name `"sda"`,
read_count 100, read_merged_count 5, read_bytes 51200·512 = 26214400,
write_count 20, write_merged_count 2, write_bytes 10240·512 = 5242880 —
with busy_time taken from the 13th field (7 seconds), the next consumed
field after the documented skipped columns. -/
theorem c1_amended_parse :
    IoCounters.from_str "8 0 sda 100 5 51200 10 20 2 10240 20" =
      .error (Error.mk .Parse) ∧
    IoCounters.from_str "8 0 sda 100 5 51200 10 20 2 10240 20 30 7" =
      .ok (IoCounters.mk "sda" 100 20 26214400 5242880 7 5 2) := by
  decide

/-- C2: whenever the full enumeration of some input lines succeeds with
record sequence `all` and the physical-device enumeration succeeds with
`phys`, then `phys` is a sublist of `all` (a subset preserving the
original relative order), and re-applying the physical filter stage to
`phys` returns `phys` unchanged (the filter is idempotent). -/
theorem io_counters_physical_sublist_idem (fs : FsModel) (lines : List String)
    (all phys : List IoCounters)
    (hall : io_counters lines = .ok all)
    (hphys : io_counters_physical fs lines = .ok phys) :
    phys.Sublist all ∧ filterPhysical fs phys = .ok phys := by
  rw [physical_eq_filter fs lines all hall] at hphys
  exact ⟨filterPhysical_sublist fs all phys hphys,
    filterPhysical_idem fs all phys hphys⟩

/-- C2 (witness): on two concrete lines, of which only `sda` exists under
`/sys/block`, the physical sequence `[sdaRec]` is a sublist of the full
sequence `[sdaRec, loopRec]` and re-filtering it returns it unchanged. -/
theorem io_counters_physical_sublist_idem_w :
    List.Sublist [sdaRec] [sdaRec, loopRec] ∧
      filterPhysical fsW [sdaRec] = .ok [sdaRec] :=
  io_counters_physical_sublist_idem fsW linesW [sdaRec, loopRec] [sdaRec]
    (by decide) (by decide)

/-- C4: every input line with fewer than the 13 required
whitespace-separated fields fails to parse, with an error whose kind is
the structural `Parse` kind or a typed `ParseInt` kind; the model is a
total function into `Except`, so no panic and no partial record is
possible — the error case carries no record at all. -/
theorem from_str_short_line_fails (s : String)
    (h : (splitWhitespace s).length < 13) :
    ∃ e, IoCounters.from_str s = .error e ∧
      (e.kind = .Parse ∨ ∃ t, e.kind = .ParseInt t) := by
  rcases fromFields_master (splitWhitespace s) with
    ⟨rc, rmc, rawR, wc, wmc, rawW, bt, -, -, -, -, -, -, -, hlen, -⟩ |
    ⟨e, he, hkind, -⟩
  · omega
  · exact ⟨e, he, hkind⟩

/-- C4 (witness): the 3-field line `"8 0 sda"` fails with such an error. -/
theorem from_str_short_line_fails_w :
    (splitWhitespace "8 0 sda").length < 13 ∧
      ∃ e, IoCounters.from_str "8 0 sda" = .error e ∧
        (e.kind = .Parse ∨ ∃ t, e.kind = .ParseInt t) :=
  ⟨by decide, from_str_short_line_fails "8 0 sda" (by decide)⟩

/-- C7: for every successfully parsed line, `read_bytes` and `write_bytes`
are the raw sector counts of columns 6 and 10 multiplied by the fixed
`DISK_SECTOR_SIZE = 512` (as the source's u64 multiplication, i.e. modulo
`2 ^ 64`; whenever the product fits in a u64 — every realistic counter —
it is exactly `raw * 512`). -/
theorem from_str_sector_scaling (s : String) (r : IoCounters)
    (h : IoCounters.from_str s = .ok r) :
    ∃ rawR rawW : Nat,
      parseU64 ((splitWhitespace s).getD 5 "") = some rawR ∧
      parseU64 ((splitWhitespace s).getD 9 "") = some rawW ∧
      r.read_bytes = rawR * DISK_SECTOR_SIZE % 2 ^ 64 ∧
      r.write_bytes = rawW * DISK_SECTOR_SIZE % 2 ^ 64 ∧
      (rawR * DISK_SECTOR_SIZE < 2 ^ 64 → r.read_bytes = rawR * 512) ∧
      (rawW * DISK_SECTOR_SIZE < 2 ^ 64 → r.write_bytes = rawW * 512) := by
  have h' : fromFields (splitWhitespace s) = .ok r := h
  rcases fromFields_master (splitWhitespace s) with
    ⟨rc, rmc, rawR, wc, wmc, rawW, bt, h3, h4, h5, h7, h8, h9, h12, hlen, hok⟩ |
    ⟨e, he, -, -⟩
  · rw [h'] at hok
    simp only [Except.ok.injEq] at hok
    subst hok
    refine ⟨rawR, rawW, h5, h9, rfl, rfl, fun hlt => ?_, fun hlt => ?_⟩
    · show rawR * DISK_SECTOR_SIZE % 2 ^ 64 = rawR * 512
      rw [Nat.mod_eq_of_lt hlt]
      rfl
    · show rawW * DISK_SECTOR_SIZE % 2 ^ 64 = rawW * 512
      rw [Nat.mod_eq_of_lt hlt]
      rfl
  · rw [h'] at he
    simp at he

/-- C7 (witness): on a line whose read-sectors column is 100 and
write-sectors column is 200, the parsed record has
`read_bytes = 100 * 512 = 51200` and `write_bytes = 102400`. -/
theorem from_str_sector_scaling_w :
    (∃ rawR rawW : Nat,
      parseU64 ((splitWhitespace "0 0 sda 1 1 100 0 1 1 200 0 0 3").getD 5 "") = some rawR ∧
      parseU64 ((splitWhitespace "0 0 sda 1 1 100 0 1 1 200 0 0 3").getD 9 "") = some rawW ∧
      (IoCounters.mk "sda" 1 1 51200 102400 3 1 1).read_bytes = rawR * DISK_SECTOR_SIZE % 2 ^ 64 ∧
      (IoCounters.mk "sda" 1 1 51200 102400 3 1 1).write_bytes = rawW * DISK_SECTOR_SIZE % 2 ^ 64 ∧
      (rawR * DISK_SECTOR_SIZE < 2 ^ 64 →
        (IoCounters.mk "sda" 1 1 51200 102400 3 1 1).read_bytes = rawR * 512) ∧
      (rawW * DISK_SECTOR_SIZE < 2 ^ 64 →
        (IoCounters.mk "sda" 1 1 51200 102400 3 1 1).write_bytes = rawW * 512)) ∧
    (IoCounters.mk "sda" 1 1 51200 102400 3 1 1).read_bytes = 51200 :=
  ⟨from_str_sector_scaling "0 0 sda 1 1 100 0 1 1 200 0 0 3"
    (IoCounters.mk "sda" 1 1 51200 102400 3 1 1) (by decide), rfl⟩

/-- C10: `IoCounters::from_str` succeeds exactly on lines with at least 13
whitespace-separated fields whose consumed numeric columns (1-based fields
4, 5, 6, 8, 9, 10, 13; the name field 3 is a string and always converts)
parse as u64 (`requiredOk`); and the result depends only on the consumed
positions — two lines agreeing at 0-based positions 2, 3, 4, 5, 7, 8, 9,
12 parse identically, so the two leading fields, field 7, fields 11-12 and
any fields beyond the 13th never affect the result. -/
theorem from_str_success_iff_and_ignored :
    (∀ s, (∃ r, IoCounters.from_str s = .ok r) ↔ requiredOk (splitWhitespace s)) ∧
    (∀ s t,
      (∀ i ∈ consumedIdx, (splitWhitespace s).get? i = (splitWhitespace t).get? i) →
      IoCounters.from_str s = IoCounters.from_str t) := by
  constructor
  · intro s
    constructor
    · intro ⟨r, h⟩
      have h' : fromFields (splitWhitespace s) = .ok r := h
      rcases fromFields_master (splitWhitespace s) with
        ⟨rc, rmc, rawR, wc, wmc, rawW, bt, h3, h4, h5, h7, h8, h9, h12, hlen, hok⟩ |
        ⟨e, he, -, -⟩
      · exact ⟨hlen, by rw [h3]; rfl, by rw [h4]; rfl, by rw [h5]; rfl,
          by rw [h7]; rfl, by rw [h8]; rfl, by rw [h9]; rfl, by rw [h12]; rfl⟩
      · rw [h'] at he
        simp at he
    · intro hreq
      rcases fromFields_master (splitWhitespace s) with
        ⟨rc, rmc, rawR, wc, wmc, rawW, bt, -, -, -, -, -, -, -, -, hok⟩ |
        ⟨e, he, hkind, hnreq⟩
      · exact ⟨_, hok⟩
      · exact absurd hreq hnreq
  · intro s t hagree
    have e2 := hagree 2 (by decide)
    have e3 := hagree 3 (by decide)
    have e4 := hagree 4 (by decide)
    have e5 := hagree 5 (by decide)
    have e7 := hagree 7 (by decide)
    have e8 := hagree 8 (by decide)
    have e9 := hagree 9 (by decide)
    have e12 := hagree 12 (by decide)
    show fromFields (splitWhitespace s) = fromFields (splitWhitespace t)
    rw [fromFields_eq_view (splitWhitespace s), fromFields_eq_view (splitWhitespace t),
      e2, e3, e4, e5, e7, e8, e9, e12]

/-- C10 (witness): two concrete lines that differ in both leading fields,
in field 7, and in the presence of a 14th field, but agree on the consumed
positions, parse to identical results. -/
theorem from_str_success_iff_and_ignored_w :
    IoCounters.from_str "8 0 sda 1 2 3 4 5 6 7 8 9 10 extra" =
      IoCounters.from_str "9 99 sda 1 2 3 77 5 6 7 8 9 10" :=
  from_str_success_iff_and_ignored.2
    "8 0 sda 1 2 3 4 5 6 7 8 9 10 extra" "9 99 sda 1 2 3 77 5 6 7 8 9 10"
    (by decide)

/-- C3: on the very first access, if the sysconf result is non-positive
(e.g. `-1`), the access fails fatally with the captured OS error, the
cache stays unfilled, and the next access re-attempts the privileged query
(its outcome is exactly that of a first access); if the sysconf result is
positive, that value is returned and cached, and every subsequent access
returns the cached value with no recomputation (the outcome of a cached
access is independent of the current sysconf environment). -/
theorem clock_ticks_cache_behavior (env env2 : CpuEnv) :
    (env.sysconfResult ≤ 0 →
      CLOCK_TICKS_access env .uninit =
        (.fatal (Error.from_io_error env.osError), .uninit) ∧
      CLOCK_TICKS_access env2 (CLOCK_TICKS_access env .uninit).2 =
        CLOCK_TICKS_access env2 .uninit) ∧
    (0 < env.sysconfResult →
      CLOCK_TICKS_access env .uninit =
        (.value env.sysconfResult, .cached env.sysconfResult) ∧
      ∀ v, CLOCK_TICKS_access env2 (.cached v) = (.value v, .cached v)) := by
  constructor
  · intro h
    have hcond : ¬ env.sysconfResult > 0 := by omega
    constructor
    · simp [CLOCK_TICKS_access, clock_ticks, hcond]
    · simp [CLOCK_TICKS_access, clock_ticks, hcond]
  · intro h
    constructor
    · simp [CLOCK_TICKS_access, clock_ticks, h]
    · intro v
      rfl

/-- C3 (witness): with a sysconf result of `-1` the first access is fatal
and leaves the cache unfilled so the second access re-runs the query; with
a result of 100 the access yields 100, caches it, and cached accesses
return it regardless of the environment. -/
theorem clock_ticks_cache_behavior_w :
    (CLOCK_TICKS_access envFail .uninit =
        (.fatal (Error.from_io_error envFail.osError), .uninit) ∧
      CLOCK_TICKS_access envOk (CLOCK_TICKS_access envFail .uninit).2 =
        CLOCK_TICKS_access envOk .uninit) ∧
    (CLOCK_TICKS_access envOk .uninit = (.value 100, .cached 100) ∧
      ∀ v, CLOCK_TICKS_access envFail (.cached v) = (.value v, .cached v)) :=
  ⟨(clock_ticks_cache_behavior envFail envOk).1 (by decide),
   (clock_ticks_cache_behavior envOk envFail).2 (by decide)⟩

/-- C5 (counterexample): the conversions are NOT all total and lossless:
the `nix::Error` conversion produces no `Error` at all (it is
`unimplemented!()` and panics), and the `net::AddrParseError` conversion
maps two distinct causes to the same cause-free `Parse` error, dropping
the original cause. -/
theorem error_conversions_counterexample :
    Error.from_nix_error ⟨"EPERM: Operation not permitted"⟩ = none ∧
    Error.from_addr_parse_error ⟨"invalid IP address syntax"⟩ =
      Error.from_addr_parse_error ⟨"invalid socket address syntax"⟩ ∧
    (⟨"invalid IP address syntax"⟩ : AddrParseError) ≠
      ⟨"invalid socket address syntax"⟩ := by
  decide

/-- C5 (amended): every conversion from an underlying failure type into
`Error` is total and lossless (injective, the cause stored in the matching
kind and rendered verbatim by `display`), EXCEPT two: the address-parse
conversion is total but lossy — every cause maps to the cause-free generic
`Parse` kind — and the Unix `nix::Error` conversion is unimplemented and
panics instead of producing an `Error`. -/
theorem error_conversions_amended :
    Function.Injective Error.from_nul_error ∧
    Function.Injective Error.from_into_string_error ∧
    Function.Injective Error.from_io_error ∧
    Function.Injective Error.from_parse_int_error ∧
    Function.Injective Error.from_parse_float_error ∧
    Function.Injective Error.from_parse_string_error ∧
    Function.Injective Error.from_utf8_error ∧
    Function.Injective Error.from_boxed_error ∧
    (∀ e, (Error.from_nul_error e).display = e.msg) ∧
    (∀ e, (Error.from_into_string_error e).display = e.msg) ∧
    (∀ e, (Error.from_io_error e).display = e.msg) ∧
    (∀ e, (Error.from_parse_int_error e).display = e.msg) ∧
    (∀ e, (Error.from_parse_float_error e).display = e.msg) ∧
    (∀ e, (Error.from_parse_string_error e).display = e.msg) ∧
    (∀ e, (Error.from_utf8_error e).display = e.msg) ∧
    (∀ e, (Error.from_boxed_error e).display = e.msg) ∧
    (∀ e, Error.from_addr_parse_error e = Error.mk .Parse) ∧
    (∀ e, Error.from_nix_error e = none) := by
  refine ⟨?_, ?_, ?_, ?_, ?_, ?_, ?_, ?_,
    fun _ => rfl, fun _ => rfl, fun _ => rfl, fun _ => rfl,
    fun _ => rfl, fun _ => rfl, fun _ => rfl, fun _ => rfl,
    fun _ => rfl, fun _ => rfl⟩ <;>
  · intro a b hab
    cases a
    cases b
    simpa [Error.from_nul_error, Error.from_into_string_error, Error.from_io_error,
      Error.from_parse_int_error, Error.from_parse_float_error,
      Error.from_parse_string_error, Error.from_utf8_error,
      Error.from_boxed_error] using hab

/-- C6: the claim says a failure in the blocking per-record probe call
propagates as the enumeration's terminal `Error`; the code instead PANICS
(`CString::new(..).expect("Malformed device path")`, explicitly marked
`FIXME: propagate error` in the source, and
`.map_err(|_| panic!("The tokio threadpool shut down"))`), so the failure
escapes by unwinding, not as an `Error` ending the sequence: a device name
containing a NUL byte panics the probe and the whole physical enumeration,
and a shut-down worker pool panics the probe. -/
theorem probe_failure_panics_not_error :
    is_storage_device (FsModel.mk (fun _ => true) true) "sd\x00a" =
      .panicked "Malformed device path" ∧
    is_storage_device (FsModel.mk (fun _ => true) false) "sda" =
      .panicked "The tokio threadpool shut down" ∧
    io_counters_physical (FsModel.mk (fun _ => true) true)
      ["8 0 sd\x00a 1 0 8 0 1 0 8 0 0 2"] =
      .panicked "Malformed device path" := by
  decide

/-- C9: whenever the derived probe path contains no NUL byte (so the C
string is constructible) and the worker pool is running, the probe checks
existence of `/sys/block/<name with every '/' replaced by '!'>` and
classifies the record as a physical device exactly when that path exists. -/
theorem is_storage_device_classifies (fs : FsModel) (name : String)
    (hnul : '\x00' ∉ (probePath name).data) (hpool : fs.poolUp = true) :
    is_storage_device fs name =
      .ok (fs.access ("/sys/block/" ++ replaceSlash name)) := by
  unfold is_storage_device
  rw [if_neg hnul]
  simp [hpool, probePath]

/-- C9 (witness): with exactly `/sys/block/sda` existing, the probe
classifies `"sda"` as a physical device; with a name containing `/`, the
probed path substitutes `!` and the classification follows existence. -/
theorem is_storage_device_classifies_w :
    is_storage_device fsW "sda" = .ok true ∧
    is_storage_device fsW "cciss/c0d0" = .ok (fsW.access "/sys/block/cciss!c0d0") := by
  constructor
  · rw [is_storage_device_classifies fsW "sda" (by decide) rfl]
    decide
  · rw [is_storage_device_classifies fsW "cciss/c0d0" (by decide) rfl]
    decide

/-- C8 (counterexample): the generic-parse variant's fixed message is
`"Unable to parse"` (capital U), not the claimed exact string
`"unable to parse"`. -/
theorem display_parse_counterexample :
    Error.display (Error.mk .Parse) = "Unable to parse" ∧
    Error.display (Error.mk .Parse) ≠ "unable to parse" := by
  decide

/-- C8 (amended): for every cause-carrying variant (malformed-C-string,
FFI-string, I/O, int-parse, float-parse, string-parse, UTF-8, other),
`Display` renders the wrapped cause's own textual form verbatim; the
generic-parse variant, which carries no structured cause, renders the
fixed message `"Unable to parse"`. -/
theorem display_delegates_amended :
    (∀ e, Error.display ⟨.FromNul e⟩ = e.msg) ∧
    (∀ e, Error.display ⟨.FromFfiString e⟩ = e.msg) ∧
    (∀ e, Error.display ⟨.Io e⟩ = e.msg) ∧
    (∀ e, Error.display ⟨.ParseInt e⟩ = e.msg) ∧
    (∀ e, Error.display ⟨.ParseFloat e⟩ = e.msg) ∧
    (∀ e, Error.display ⟨.ParseString e⟩ = e.msg) ∧
    (∀ e, Error.display ⟨.FromUtf8 e⟩ = e.msg) ∧
    (∀ e, Error.display ⟨.Other e⟩ = e.msg) ∧
    Error.display (Error.mk .Parse) = "Unable to parse" :=
  ⟨fun _ => rfl, fun _ => rfl, fun _ => rfl, fun _ => rfl,
   fun _ => rfl, fun _ => rfl, fun _ => rfl, fun _ => rfl, rfl⟩

end Heim
